import Mathlib

/-!
Verification of the lumina face-detection helper scripts
(`scripts/face_detect_insightface.py` and
`scripts/face_detect_insightface_batch.py`).

The scripts are shallowly embedded: Python values printed as JSON become the
inductive `Json`; Python exceptions become `Except String`; the external
collaborators (file system, cv2, the InsightFace detector) become fields of a
`World` record; `print`, `sys.exit`, `try/except` and
`contextlib.redirect_stdout` become operations of a small explicit monad `PyM`
that records every printed value together with the output channel it went to.
-/

set_option autoImplicit false

namespace Lumina

/-- JSON values, the shape of everything the scripts read from `batch.json`
or print with `json.dumps`.  Numbers are modelled as rationals: the claims
under study concern only the structure of the emitted JSON, never float
arithmetic. -/
inductive Json where
  | null : Json
  | bool (b : Bool) : Json
  | num (q : Rat) : Json
  | str (s : String) : Json
  | arr (elems : List Json) : Json
  | obj (fields : List (String × Json)) : Json

/-- Lookup of a key in the field list of a JSON object (Python dict access
that returns the first binding of the key). -/
def objLookup : List (String × Json) → String → Option Json
  | [], _ => none
  | (k, v) :: rest, key => if k = key then some v else objLookup rest key

/-- Lookup of a key on an arbitrary JSON value; `none` when the value is not
an object or the key is absent. -/
def jsonMember (j : Json) (key : String) : Option Json :=
  match j with
  | Json.obj fields => objLookup fields key
  | _ => none

/-- The JSON object `{"error": msg}` that every failure branch of the scripts
prints. -/
def errJson (msg : String) : Json :=
  Json.obj [("error", Json.str msg)]

/-! ## Python primitive semantics needed by the scripts

String operations are implemented over the character list of the string by
structural recursion, so that every definition in this file evaluates by mere
unfolding on concrete inputs. -/

/-- Model of Python `s.strip()` with no argument: remove leading and trailing
whitespace. -/
def pyStrip (s : String) : String :=
  String.mk (((s.data.dropWhile Char.isWhitespace).reverse.dropWhile
    Char.isWhitespace).reverse)

/-- Splitting a character list at every occurrence of the separator; the
accumulator holds the current segment reversed. -/
def splitCharAux (sep : Char) : List Char → List Char → List (List Char)
  | [], acc => [acc.reverse]
  | c :: rest, acc =>
    if c = sep then acc.reverse :: splitCharAux sep rest []
    else splitCharAux sep rest (c :: acc)

/-- Model of Python `s.split(sep)` for a one-character separator: the empty
string yields `[""]`, and `n` separators yield `n + 1` segments. -/
def pySplitChar (sep : Char) (s : String) : List String :=
  (splitCharAux sep s.data []).map String.mk

/-- Scanner for the digit part of a Python `int()` literal: digits with
single underscores allowed between digits.  The flag records whether the
previous character was a digit (so the string may end, or an underscore may
follow). -/
def pyDigitsOk : List Char → Bool → Bool
  | [], last => last
  | c :: rest, last =>
    if c.isDigit then pyDigitsOk rest true
    else if c = '_' && last then pyDigitsOk rest false
    else false

/-- Numeric value of a digit string, skipping underscores. -/
def digitsVal (cs : List Char) : Nat :=
  cs.foldl (fun n c => if c.isDigit then n * 10 + (c.toNat - 48) else n) 0

/-- Model of Python `int(s)` on a string: optional surrounding whitespace,
optional sign, then a nonempty run of digits with single underscores between
digits.  Returns `none` where Python raises `ValueError`. -/
def pyInt (s : String) : Option Int :=
  let cs := (pyStrip s).data
  match cs with
  | '+' :: rest => if pyDigitsOk rest false then some (digitsVal rest : Int) else none
  | '-' :: rest => if pyDigitsOk rest false then some (-(digitsVal rest : Int)) else none
  | _ => if pyDigitsOk cs false then some (digitsVal cs : Int) else none

/-- Model of `os.path.join(a, b)` on POSIX with a relative or absolute second
component. -/
def pyJoin (a b : String) : String :=
  if b.data.head? = some '/' then b
  else if a = "" then b
  else if a.data.getLast? = some '/' then a ++ b
  else a ++ "/" ++ b

/-! ## Configuration parsing (`_get_env`, `_parse_providers`, `_parse_det_size`)

The two scripts contain identical copies of these three helpers; one
embedding serves both. -/

/-- Embedding of `_get_env`: the environment value when present and nonblank,
otherwise the default. -/
def getEnvD (env : String → Option String) (name default : String) : String :=
  match env name with
  | some v => if pyStrip v ≠ "" then v else default
  | none => default

/-- Embedding of `_parse_providers`: split the CSV on commas, strip each
part, keep the nonempty ones, and fall back to the single CPU provider when
nothing remains. -/
def parseProviders (envVal : String) : List String :=
  let parts := ((pySplitChar ',' envVal).map pyStrip).filter (fun p => p ≠ "")
  if parts = [] then ["CPUExecutionProvider"] else parts

/-- Embedding of `_parse_det_size`: the string must split on commas into
exactly two parts, both parts must survive `int()` after stripping, and both
integers must be positive; otherwise every failure falls into the
`except`/fall-through branch returning `(640, 640)`. -/
def parseDetSize (envVal : String) : Int × Int :=
  match pySplitChar ',' envVal with
  | [wStr, hStr] =>
    match pyInt (pyStrip wStr), pyInt (pyStrip hStr) with
    | some w, some h => if 0 < w ∧ 0 < h then (w, h) else (640, 640)
    | _, _ => (640, 640)
  | _ => (640, 640)

/-- Modelled from the specification text of the detection-size claim: the
parse succeeds exactly when the string splits on a comma into two parts that
both parse as integers greater than zero after trimming; any other input
yields no result. -/
def specDetSizeParse (s : String) : Option (Int × Int) :=
  match pySplitChar ',' s with
  | [wStr, hStr] =>
    match pyInt (pyStrip wStr), pyInt (pyStrip hStr) with
    | some w, some h => if 0 < w ∧ 0 < h then some (w, h) else none
    | _, _ => none
  | _ => none

/-- Modelled from the specification text of the provider-list claim: split on
commas, trim whitespace from each segment, drop segments that are empty after
trimming. -/
def specProviderSegments (s : String) : List String :=
  ((pySplitChar ',' s).map pyStrip).filter (fun p => p ≠ "")

/-! ## Face records and result normalization

A face record is whatever object `fa.get(img)` yields for one face.  The
script only ever touches it through a fixed set of probes, each of which may
raise, so the record is embedded as the outcomes of those probes:
`[float(x) for x in f.bbox]`, `[float(x) for x in f.bbox.tolist()]`,
`getattr(f, "det_score", ...)`, `getattr(f, "score", ...)`,
`hasattr(f, "embedding")`, `f.embedding is None`,
`[float(x) for x in f.embedding.tolist()]` and
`[float(x) for x in f.embedding]`. -/

structure FaceRec where
  bboxDirect : Except String (List Rat)
  bboxTolist : Except String (List Rat)
  detScore : Option Rat
  scoreAttr : Option Rat
  hasEmb : Bool
  embIsNone : Bool
  embTolist : Except String (List Rat)
  embDirect : Except String (List Rat)

/-- Bounding-box extraction: direct float coercion of `f.bbox` first, and on
exception the `f.bbox.tolist()` conversion. -/
def extractBbox (f : FaceRec) : Except String (List Rat) :=
  match f.bboxDirect with
  | Except.ok b => Except.ok b
  | Except.error _ => f.bboxTolist

/-- Score extraction: `float(getattr(f, "det_score", getattr(f, "score",
0.0)))`. -/
def extractScore (f : FaceRec) : Rat :=
  match f.detScore with
  | some s => s
  | none =>
    match f.scoreAttr with
    | some s => s
    | none => 0

/-- Embedding extraction as the scripts perform it: when the record has an
embedding attribute that is not `None`, try `f.embedding.tolist()` inside the
comprehension first, and only when that raises fall back to iterating
`f.embedding` directly; when the attribute is absent or `None` the extracted
value stays `None`. -/
def extractEmbedding (f : FaceRec) : Except String (Option (List Rat)) :=
  if f.hasEmb && !f.embIsNone then
    match f.embTolist with
    | Except.ok v => Except.ok (some v)
    | Except.error _ => f.embDirect.map some
  else
    Except.ok none

/-- Modelled from the specification text of the embedding claim: first
attempt direct coercion of the embedding to a flat float sequence, and only
when that attempt throws fall back to the list conversion. -/
def specEmbeddingDirectFirst (f : FaceRec) : Except String (Option (List Rat)) :=
  if f.hasEmb && !f.embIsNone then
    match f.embDirect with
    | Except.ok v => Except.ok (some v)
    | Except.error _ => f.embTolist.map some
  else
    Except.ok none

/-- Python `emb or []`: `None` and the empty list both collapse to the empty
list. -/
def embOrEmpty : Option (List Rat) → List Rat
  | some l => l
  | none => []

/-- Normalization of one face record into the emitted JSON object
`{"box": ..., "score": ..., "embedding": ...}`; an exception from a probe
whose fallback also raises propagates out. -/
def normalizeFace (f : FaceRec) : Except String Json :=
  match extractBbox f with
  | Except.error e => Except.error e
  | Except.ok bbox =>
    let score := extractScore f
    match extractEmbedding f with
    | Except.error e => Except.error e
    | Except.ok emb =>
      Except.ok (Json.obj
        [("box", Json.arr (bbox.map Json.num)),
         ("score", Json.num score),
         ("embedding", Json.arr ((embOrEmpty emb).map Json.num))])

/-- Normalization of the full face list in order; the first raising record
aborts the whole loop, as the Python `for` body would. -/
def normalizeFaces : List FaceRec → Except String (List Json)
  | [] => Except.ok []
  | f :: rest =>
    match normalizeFace f with
    | Except.error e => Except.error e
    | Except.ok j =>
      match normalizeFaces rest with
      | Except.error e => Except.error e
      | Except.ok js => Except.ok (j :: js)

/-! ## Python access semantics on JSON values -/

/-- Python membership test `key in value` for a string key, as used by
`"files" not in batch_config`: key lookup on dicts, element equality on
lists, substring test on strings, and `TypeError` on the remaining JSON
shapes. -/
def jsonHasMember (key : String) : Json → Except String Bool
  | Json.obj fields => Except.ok (objLookup fields key).isSome
  | Json.arr elems => Except.ok (elems.any (fun e =>
      match e with
      | Json.str s => s = key
      | _ => false))
  | Json.str s => Except.ok (decide (key.data <:+: s.data))
  | _ => Except.error "TypeError: argument is not iterable"

/-- Python subscript `value[key]` for a string key: dict lookup raising
`KeyError` on a missing key, and `TypeError` on every non-dict JSON shape. -/
def jsonGetItem (j : Json) (key : String) : Except String Json :=
  match j with
  | Json.obj fields =>
    match objLookup fields key with
    | some v => Except.ok v
    | none => Except.error ("KeyError: " ++ key)
  | _ => Except.error "TypeError: value is not subscriptable by str"

/-- Python iteration `for x in value`: lists yield elements, dicts yield
keys, strings yield one-character strings, everything else raises
`TypeError`. -/
def jsonIterate : Json → Except String (List Json)
  | Json.arr elems => Except.ok elems
  | Json.obj fields => Except.ok (fields.map (fun kv => Json.str kv.1))
  | Json.str s => Except.ok (s.data.map (fun c => Json.str (String.singleton c)))
  | _ => Except.error "TypeError: value is not iterable"

/-- Coercion used where Python requires a `str` (the `os.path.join`
argument). -/
def asStr : Json → Except String String
  | Json.str s => Except.ok s
  | _ => Except.error "TypeError: expected str"

/-! ## The effect monad

`PyM` threads the current stdout target (`Chan.real` or, inside a
`redirect_stdout` block, `Chan.buffer`), records every printed JSON value
with the channel it went to, and distinguishes three outcomes: normal
completion, an uncaught `Exception`, and `SystemExit` from `sys.exit`
(which `except Exception` does not catch). -/

inductive Chan where
  | real : Chan
  | buffer : Chan
deriving DecidableEq

inductive Outcome (α : Type) where
  | ok : α → Outcome α
  | exn : String → Outcome α
  | exited : Nat → Outcome α

structure PyRes (α : Type) where
  out : Outcome α
  prints : List (Json × Chan)
  chan : Chan

def PyM (α : Type) : Type := Chan → PyRes α

/-- Pure value: nothing printed, channel untouched. -/
def pyPure {α : Type} (a : α) : PyM α := fun c => ⟨Outcome.ok a, [], c⟩

/-- Sequencing: run `m`; on normal completion feed its value to `f` with the
channel `m` left behind; an exception or a `sys.exit` skips `f`.  Prints
accumulate in order. -/
def pyBind {α β : Type} (m : PyM α) (f : α → PyM β) : PyM β := fun c =>
  let r := m c
  match r.out with
  | Outcome.ok a =>
    let r2 := f a r.chan
    ⟨r2.out, r.prints ++ r2.prints, r2.chan⟩
  | Outcome.exn e => ⟨Outcome.exn e, r.prints, r.chan⟩
  | Outcome.exited n => ⟨Outcome.exited n, r.prints, r.chan⟩

/-- Model of `print(json.dumps(j))`: the value goes to whatever `sys.stdout`
currently points at. -/
def pyPrint (j : Json) : PyM Unit := fun c => ⟨Outcome.ok (), [(j, c)], c⟩

/-- Model of `sys.exit(n)`. -/
def pyExit {α : Type} (n : Nat) : PyM α := fun c => ⟨Outcome.exited n, [], c⟩

/-- Model of raising an exception. -/
def pyRaise {α : Type} (e : String) : PyM α := fun c => ⟨Outcome.exn e, [], c⟩

/-- Lift of an exception-or-value computation into the effect monad. -/
def liftExcept {α : Type} : Except String α → PyM α
  | Except.ok a => pyPure a
  | Except.error e => pyRaise e

/-- Every error branch of both mains is `print(json.dumps({"error": msg}))`
followed by `sys.exit(n)`. -/
def printExit (msg : String) (n : Nat) : PyM Unit :=
  pyBind (pyPrint (errJson msg)) (fun _ => pyExit n)

/-- Model of `try: body except Exception as e: handler(e)`: exceptions are
caught, `SystemExit` and normal completion pass through. -/
def pyTry {α : Type} (body : PyM α) (handler : String → PyM α) : PyM α := fun c =>
  let r := body c
  match r.out with
  | Outcome.exn e =>
    let r2 := handler e r.chan
    ⟨r2.out, r.prints ++ r2.prints, r2.chan⟩
  | _ => r

/-- Model of `with redirect_stdout(f): body`: the body runs with stdout
pointing at the buffer, and the saved channel is restored on every exit path
of the block, exceptional or not. -/
def withRedirectStdout {α : Type} (body : PyM α) : PyM α := fun c =>
  let r := body Chan.buffer
  ⟨r.out, r.prints, c⟩

/-! ## The world of external collaborators

Every effect the scripts perform against the outside — `sys.argv`,
`os.environ`, `os.path.exists`, `open` + `json.load`, `cv2.imread`,
`FaceAnalysis(...)`, `fa.prepare(...)`, `fa.get(...)` — is a field of
`World`.  Images are opaque handles (`Nat`); a read or inference failure is
an `Except.error` carrying the exception text. -/

structure World where
  importOk : Bool
  importErr : String
  argv : List String
  env : String → Option String
  pathExists : String → Bool
  readJson : String → Except String Json
  construct : Option String → List String → Except String Unit
  prepare : Int → Int × Int → Except String Unit
  imread : String → Option Nat
  faGet : Nat → Except String (List FaceRec)

/-- Detector initialization, identical in both scripts: read configuration
from the environment, construct `FaceAnalysis` with the configured model pack
and on exception retry with the library default pack, then `prepare` with the
context id and detection size. -/
def initDetector (w : World) : Except String Unit :=
  let modelName := getEnvD w.env "LUMINA_INSIGHTFACE_MODEL" "buffalo_l"
  let providers := parseProviders
    (getEnvD w.env "LUMINA_INSIGHTFACE_PROVIDERS" "CPUExecutionProvider")
  let ctxId := (pyInt (getEnvD w.env "LUMINA_INSIGHTFACE_CTX_ID" "-1")).getD (-1)
  let detSize := parseDetSize (getEnvD w.env "LUMINA_INSIGHTFACE_DET_SIZE" "640,640")
  match (match w.construct (some modelName) providers with
         | Except.ok u => Except.ok u
         | Except.error _ => w.construct none providers) with
  | Except.error e => Except.error e
  | Except.ok _ => w.prepare ctxId detSize

/-- One BatchResult carrying an error: empty face list, non-null error
string. -/
def batchResultErr (photoId : Json) (msg : String) : Json :=
  Json.obj [("photoId", photoId), ("faces", Json.arr []), ("error", Json.str msg)]

/-- Embedding of `process_single_image`: a total function, because its
enclosing `try` catches every exception the body can raise and converts it to
an error BatchResult. -/
def processSingleImage (w : World) (imgPath : String) (photoId : Json) : Json :=
  if ¬ w.pathExists imgPath then batchResultErr photoId "image not found"
  else
    match w.imread imgPath with
    | none => batchResultErr photoId "could not read image"
    | some img =>
      match w.faGet img with
      | Except.error e => batchResultErr photoId ("Processing error: " ++ e)
      | Except.ok faces =>
        match normalizeFaces faces with
        | Except.error e => batchResultErr photoId ("Processing error: " ++ e)
        | Except.ok out =>
          Json.obj [("photoId", photoId), ("faces", Json.arr out), ("error", Json.null)]

/-- The `for file_info in batch_config["files"]` loop of the batch script:
the subscript lookups of `photoId` and `filename` and the path join sit
outside `process_single_image`, so their exceptions abort the whole loop. -/
def batchLoop (w : World) (tempDir : String) : List Json → PyM (List Json)
  | [] => pyPure []
  | e :: rest =>
    pyBind (liftExcept (jsonGetItem e "photoId")) (fun photoId =>
    pyBind (liftExcept (jsonGetItem e "filename")) (fun filenameJ =>
    pyBind (liftExcept (asStr filenameJ)) (fun filename =>
    let r := processSingleImage w (pyJoin tempDir filename) photoId
    pyBind (batchLoop w tempDir rest) (fun rs =>
    pyPure (r :: rs)))))

/-- Embedding of `main()` of the batch script. -/
def mainBatch (w : World) : PyM Unit :=
  pyTry
    (if w.argv.length < 2 then printExit "missing temp directory path" 1
    else
      let tempDir := w.argv.getD 1 ""
      if ¬ w.pathExists tempDir then printExit "temp directory not found" 1
      else
        let batchFile := pyJoin tempDir "batch.json"
        if ¬ w.pathExists batchFile then printExit "batch.json not found" 1
        else
          pyBind (liftExcept (w.readJson batchFile)) (fun batchConfig =>
          pyBind (liftExcept (jsonHasMember "files" batchConfig)) (fun hasFiles =>
          if ¬ hasFiles then printExit "batch.json missing \x27files\x27 array" 1
          else
            pyBind (withRedirectStdout (liftExcept (initDetector w))) (fun _ =>
            pyBind (liftExcept (jsonGetItem batchConfig "files")) (fun files =>
            pyBind (liftExcept (jsonIterate files)) (fun items =>
            pyBind (batchLoop w tempDir items) (fun results =>
            pyPrint (Json.obj [("results", Json.arr results)]))))))))
    (fun e => printExit ("Python script error: " ++ e) 1)

/-- Embedding of `main()` of the single-image script; `fa.get(img)` sits
inside the `redirect_stdout` block there, unlike in the batch script. -/
def mainSingle (w : World) : PyM Unit :=
  pyTry
    (if w.argv.length < 2 then printExit "missing image path" 1
    else
      let imgPath := w.argv.getD 1 ""
      if ¬ w.pathExists imgPath then printExit "image not found" 1
      else
        match w.imread imgPath with
        | none => printExit "could not read image" 1
        | some img =>
          pyBind (withRedirectStdout
            (pyBind (liftExcept (initDetector w)) (fun _ =>
             liftExcept (w.faGet img)))) (fun faces =>
          pyBind (liftExcept (normalizeFaces faces)) (fun out =>
          pyPrint (Json.obj [("faces", Json.arr out)]))))
    (fun e => printExit ("Python script error: " ++ e) 1)

/-- Exit status of the process given the outcome of `main()`: normal return
exits 0, `sys.exit(n)` exits `n`, and an exception escaping `main` (which the
top-level `try` rules out) exits 1 as CPython does. -/
def exitCodeOf {α : Type} : Outcome α → Nat
  | Outcome.ok _ => 0
  | Outcome.exited n => n
  | Outcome.exn _ => 1

/-- A whole run of the batch script: the module-level import guard prints the
missing-dependency error and exits 2 before `main` is ever entered; otherwise
`main` runs with stdout on the real channel.  The result is the list of
printed JSON values, each tagged with the channel it went to, and the process
exit status. -/
def runBatchScript (w : World) : List (Json × Chan) × Nat :=
  if w.importOk then
    let r := mainBatch w Chan.real
    (r.prints, exitCodeOf r.out)
  else
    ([(errJson ("missing dependency: " ++ w.importErr), Chan.real)], 2)

/-- A whole run of the single-image script, with the same import guard. -/
def runSingleScript (w : World) : List (Json × Chan) × Nat :=
  if w.importOk then
    let r := mainSingle w Chan.real
    (r.prints, exitCodeOf r.out)
  else
    ([(errJson ("missing dependency: " ++ w.importErr), Chan.real)], 2)

/-! ## Derived predicates on manifest entries -/

/-- Per-entry result computation performed by the loop body for an entry that
survives the `photoId`/`filename` lookups. -/
def entryProcess (w : World) (tempDir : String) (e : Json) : Json :=
  let pid := (jsonMember e "photoId").getD Json.null
  let fn := match jsonMember e "filename" with
    | some (Json.str s) => s
    | _ => ""
  processSingleImage w (pyJoin tempDir fn) pid

/-- Well-formedness of a manifest entry: a JSON object carrying a `photoId`
key and a string-valued `filename` key, which is what the spec data model
calls a BatchManifestEntry. -/
def entryWFb (e : Json) : Bool :=
  match e with
  | Json.obj fields =>
    (objLookup fields "photoId").isSome &&
    (match objLookup fields "filename" with
     | some (Json.str _) => true
     | _ => false)
  | _ => false

/-- Malformedness of a manifest entry in the sense of claim C10: the
`photoId` or `filename` lookup cannot yield a value. -/
def entryBadb (e : Json) : Bool :=
  (jsonMember e "photoId").isNone || (jsonMember e "filename").isNone

/-- Failure of per-image processing at a path: the file is missing, the image
is unreadable, or inference raises. -/
def pathFailsb (w : World) (p : String) : Bool :=
  if w.pathExists p then
    match w.imread p with
    | none => true
    | some img =>
      match w.faGet img with
      | Except.error _ => true
      | Except.ok _ => false
  else true

/-- Failure of per-image processing for a manifest entry. -/
def entryFailsb (w : World) (dir : String) (e : Json) : Bool :=
  pathFailsb w (pyJoin dir (match jsonMember e "filename" with
    | some (Json.str s) => s
    | _ => ""))

/-! ## Concrete records and worlds used to instantiate the theorems -/

/-- Face record with a readable bounding box and no embedding attribute, used
to instantiate the embedding claim. -/
def faceNoEmbedding : FaceRec where
  bboxDirect := Except.ok [1, 2, 3, 4]
  bboxTolist := Except.error "AttributeError"
  detScore := some 1
  scoreAttr := none
  hasEmb := false
  embIsNone := false
  embTolist := Except.error "AttributeError"
  embDirect := Except.error "AttributeError"

/-- Face record on which both embedding tiers succeed with different values:
`tolist` yields `[1]`, direct iteration yields `[2]`. -/
def faceBothTiersDiffer : FaceRec where
  bboxDirect := Except.ok []
  bboxTolist := Except.ok []
  detScore := none
  scoreAttr := none
  hasEmb := true
  embIsNone := false
  embTolist := Except.ok [1]
  embDirect := Except.ok [2]

/-- Batch world whose manifest names one readable image with one face and one
missing image. -/
def baseWorld : World where
  importOk := true
  importErr := ""
  argv := ["prog", "/tmp/dir"]
  env := fun _ => none
  pathExists := fun p =>
    p == "/tmp/dir" || p == "/tmp/dir/batch.json" || p == "/tmp/dir/a.jpg"
  readJson := fun _ => Except.ok (Json.obj [("files", Json.arr
    [Json.obj [("photoId", Json.str "p1"), ("filename", Json.str "a.jpg")],
     Json.obj [("photoId", Json.str "p2"), ("filename", Json.str "missing.jpg")]])])
  construct := fun _ _ => Except.ok ()
  prepare := fun _ _ => Except.ok ()
  imread := fun p => if p == "/tmp/dir/a.jpg" then some 0 else none
  faGet := fun _ => Except.ok [faceNoEmbedding]

/-- Variant of `baseWorld` whose manifest object has no `files` key. -/
def worldNoFiles : World :=
  { baseWorld with readJson := fun _ => Except.ok (Json.obj [("other", Json.null)]) }

/-- Variant of `baseWorld` whose manifest parses as the JSON number 42. -/
def worldManifestNum : World :=
  { baseWorld with readJson := fun _ => Except.ok (Json.num 42) }

/-- Variant of `baseWorld` whose second manifest entry lacks the `photoId`
key. -/
def worldBadEntry : World :=
  { baseWorld with readJson := fun _ => Except.ok (Json.obj [("files", Json.arr
      [Json.obj [("photoId", Json.str "p1"), ("filename", Json.str "a.jpg")],
       Json.obj [("filename", Json.str "b.jpg")]])]) }

/-- Variant of `baseWorld` whose manifest omits the failing second entry. -/
def worldErased : World :=
  { baseWorld with readJson := fun _ => Except.ok (Json.obj [("files", Json.arr
      [Json.obj [("photoId", Json.str "p1"), ("filename", Json.str "a.jpg")]])]) }

/-- World in which the required library fails to import. -/
def worldNoImport : World :=
  { baseWorld with importOk := false, importErr := "No module named insightface" }

/-- Single-image world in which detector preparation raises inside the
redirect block. -/
def worldPrepBoom : World :=
  { baseWorld with
      argv := ["prog", "/tmp/dir/a.jpg"],
      prepare := fun _ _ => Except.error "boom" }

/-! ## Computation rules for the effect monad -/

@[simp] theorem pyBind_pyPure {α β : Type} (a : α) (f : α → PyM β) :
    pyBind (pyPure a) f = f a := by
  funext c
  simp [pyBind, pyPure]

@[simp] theorem pyBind_pyRaise {α β : Type} (e : String) (f : α → PyM β) :
    pyBind (pyRaise e) f = pyRaise e := by
  funext c
  simp [pyBind, pyRaise]

@[simp] theorem pyBind_pyExit {α β : Type} (n : Nat) (f : α → PyM β) :
    pyBind (pyExit n) f = pyExit n := by
  funext c
  simp [pyBind, pyExit]

@[simp] theorem liftExcept_ok {α : Type} (a : α) :
    liftExcept (Except.ok a) = pyPure a := rfl

@[simp] theorem liftExcept_error {α : Type} (e : String) :
    liftExcept (Except.error e : Except String α) = pyRaise e := rfl

@[simp] theorem pyTry_pyRaise {α : Type} (e : String) (h : String → PyM α) :
    pyTry (pyRaise e) h = h e := by
  funext c
  simp [pyTry, pyRaise]

@[simp] theorem pyTry_pyPure {α : Type} (a : α) (h : String → PyM α) :
    pyTry (pyPure a) h = pyPure a := by
  funext c
  simp [pyTry, pyPure]

@[simp] theorem pyTry_pyPrint (j : Json) (h : String → PyM Unit) :
    pyTry (pyPrint j) h = pyPrint j := by
  funext c
  simp [pyTry, pyPrint]

@[simp] theorem pyTry_printExit (msg : String) (n : Nat) (h : String → PyM Unit) :
    pyTry (printExit msg n) h = printExit msg n := by
  funext c
  simp [pyTry, printExit, pyBind, pyPrint, pyExit]

@[simp] theorem withRedirectStdout_pyPure {α : Type} (a : α) :
    withRedirectStdout (pyPure a) = pyPure a := by
  funext c
  simp [withRedirectStdout, pyPure]

@[simp] theorem withRedirectStdout_pyRaise {α : Type} (e : String) :
    withRedirectStdout (pyRaise e : PyM α) = pyRaise e := by
  funext c
  simp [withRedirectStdout, pyRaise]

@[simp] theorem printExit_apply (msg : String) (n : Nat) (c : Chan) :
    printExit msg n c = ⟨Outcome.exited n, [(errJson msg, c)], c⟩ := by
  simp [printExit, pyBind, pyPrint, pyExit]

@[simp] theorem pyPrint_apply (j : Json) (c : Chan) :
    pyPrint j c = ⟨Outcome.ok (), [(j, c)], c⟩ := rfl

@[simp] theorem pyPure_apply {α : Type} (a : α) (c : Chan) :
    pyPure a c = ⟨Outcome.ok a, [], c⟩ := rfl

@[simp] theorem pyRaise_apply {α : Type} (e : String) (c : Chan) :
    (pyRaise e : PyM α) c = ⟨Outcome.exn e, [], c⟩ := rfl

@[simp] theorem exitCodeOf_ok {α : Type} (a : α) : exitCodeOf (Outcome.ok a) = 0 := rfl

@[simp] theorem exitCodeOf_exited {α : Type} (n : Nat) :
    exitCodeOf (Outcome.exited n : Outcome α) = n := rfl

/-! ## List facts used below -/

theorem map_eraseIdx_comm {α β : Type} (f : α → β) :
    ∀ (l : List α) (k : Nat), (l.eraseIdx k).map f = (l.map f).eraseIdx k := by
  intro l
  induction l with
  | nil => intro k; rfl
  | cons x xs ih =>
    intro k
    cases k with
    | zero => rfl
    | succ n => simp [List.eraseIdx, ih n]

theorem getD_map_of_lt {α β : Type} (f : α → β) (l : List α) (k : Nat) (d : β) (d2 : α)
    (hk : k < l.length) :
    (l.map f).getD k d = f (l.getD k d2) := by
  induction l generalizing k with
  | nil => simp at hk
  | cons x xs ih =>
    cases k with
    | zero => rfl
    | succ n =>
      simp only [List.map_cons, List.getD_cons_succ]
      exact ih n (by simpa using Nat.lt_of_succ_lt_succ hk)

theorem getD_mem_of_lt {α : Type} (l : List α) (k : Nat) (d : α) (hk : k < l.length) :
    l.getD k d ∈ l := by
  induction l generalizing k with
  | nil => simp at hk
  | cons x xs ih =>
    cases k with
    | zero => exact List.mem_cons_self x xs
    | succ n =>
      exact List.mem_cons_of_mem x (ih n (by simpa using Nat.lt_of_succ_lt_succ hk))

theorem mem_of_mem_eraseIdx {α : Type} {x : α} :
    ∀ {l : List α} {k : Nat}, x ∈ l.eraseIdx k → x ∈ l := by
  intro l
  induction l with
  | nil => intro k h; simp [List.eraseIdx] at h
  | cons y ys ih =>
    intro k h
    cases k with
    | zero => exact List.mem_cons_of_mem y h
    | succ n =>
      rcases List.mem_cons.mp h with rfl | h2
      · exact List.mem_cons_self x ys
      · exact List.mem_cons_of_mem y (ih h2)

/-! ## Behaviour of the batch loop -/

/-- Subscript success implies the member lookup succeeds with the same
value. -/
theorem jsonGetItem_ok_member {e : Json} {k : String} {v : Json}
    (h : jsonGetItem e k = Except.ok v) : jsonMember e k = some v := by
  cases e with
  | obj fields =>
    simp only [jsonGetItem] at h
    rcases hl : objLookup fields k with _ | u <;> rw [hl] at h
    · exact absurd h (by simp)
    · cases h
      simp [jsonMember, hl]
  | null => exact absurd h (by simp [jsonGetItem])
  | bool b => exact absurd h (by simp [jsonGetItem])
  | num q => exact absurd h (by simp [jsonGetItem])
  | str s => exact absurd h (by simp [jsonGetItem])
  | arr l => exact absurd h (by simp [jsonGetItem])

/-- On a list of well-formed entries the loop raises nothing, prints nothing,
and returns exactly the per-entry results in order. -/
theorem batchLoop_eq_map (w : World) (tempDir : String) (items : List Json)
    (h : ∀ e ∈ items, entryWFb e = true) :
    batchLoop w tempDir items = pyPure (items.map (entryProcess w tempDir)) := by
  induction items with
  | nil => rfl
  | cons e rest ih =>
    have he : entryWFb e = true := h e (List.mem_cons_self e rest)
    have hr := ih (fun x hx => h x (List.mem_cons_of_mem e hx))
    cases e with
    | obj fields =>
      simp only [entryWFb, Bool.and_eq_true] at he
      obtain ⟨h1, h2⟩ := he
      obtain ⟨pid, hpid⟩ := Option.isSome_iff_exists.mp h1
      rcases hfn : objLookup fields "filename" with _ | fv <;> rw [hfn] at h2
      · simp at h2
      · cases fv with
        | str s =>
          unfold batchLoop
          simp [jsonGetItem, hpid, hfn, asStr, hr, entryProcess, jsonMember]
        | null => simp at h2
        | bool b => simp at h2
        | num q => simp at h2
        | arr l => simp at h2
        | obj o => simp at h2
    | null => simp [entryWFb] at he
    | bool b => simp [entryWFb] at he
    | num q => simp [entryWFb] at he
    | str s => simp [entryWFb] at he
    | arr l => simp [entryWFb] at he

/-- A malformed entry anywhere in the list makes the loop raise before any
result is returned. -/
theorem batchLoop_exn (w : World) (tempDir : String) (items : List Json)
    (h : ∃ e ∈ items, entryBadb e = true) :
    ∃ msg, batchLoop w tempDir items = pyRaise msg := by
  induction items with
  | nil =>
    rcases h with ⟨e, he, _⟩
    simp at he
  | cons e rest ih =>
    rcases hpid : jsonGetItem e "photoId" with msg | pid
    · exact ⟨msg, by unfold batchLoop; simp [hpid]⟩
    rcases hfn : jsonGetItem e "filename" with msg | fnJ
    · exact ⟨msg, by unfold batchLoop; simp [hpid, hfn]⟩
    rcases hstr : asStr fnJ with msg | fn
    · exact ⟨msg, by unfold batchLoop; simp [hpid, hfn, hstr]⟩
    have hgood : entryBadb e = false := by
      simp [entryBadb, jsonGetItem_ok_member hpid, jsonGetItem_ok_member hfn]
    have hrest : ∃ x ∈ rest, entryBadb x = true := by
      rcases h with ⟨x, hx, hbad⟩
      rcases List.mem_cons.mp hx with rfl | hx2
      · rw [hgood] at hbad
        cases hbad
      · exact ⟨x, hx2, hbad⟩
    obtain ⟨msg, hmsg⟩ := ih hrest
    refine ⟨msg, ?_⟩
    unfold batchLoop
    simp [hpid, hfn, hstr, hmsg]

/-- The loop either returns a result list or raises; it never prints and
never calls `sys.exit`. -/
theorem batchLoop_shape (w : World) (tempDir : String) (items : List Json) :
    (∃ rs, batchLoop w tempDir items = pyPure rs) ∨
    (∃ msg, batchLoop w tempDir items = pyRaise msg) := by
  induction items with
  | nil => exact Or.inl ⟨[], rfl⟩
  | cons e rest ih =>
    rcases hpid : jsonGetItem e "photoId" with msg | pid
    · exact Or.inr ⟨msg, by unfold batchLoop; simp [hpid]⟩
    rcases hfn : jsonGetItem e "filename" with msg | fnJ
    · exact Or.inr ⟨msg, by unfold batchLoop; simp [hpid, hfn]⟩
    rcases hstr : asStr fnJ with msg | fn
    · exact Or.inr ⟨msg, by unfold batchLoop; simp [hpid, hfn, hstr]⟩
    rcases ih with ⟨rs, hrs⟩ | ⟨msg, hmsg⟩
    · exact Or.inl ⟨processSingleImage w (pyJoin tempDir fn) pid :: rs,
        by unfold batchLoop; simp [hpid, hfn, hstr, hrs]⟩
    · exact Or.inr ⟨msg, by unfold batchLoop; simp [hpid, hfn, hstr, hmsg]⟩

/-! ## Behaviour of the batch main on resolved preconditions -/

/-- Run of the batch script in which every precondition passes, the detector
initializes, and the loop returns `rs`. -/
theorem runBatch_happy (w : World) (prog dir : String)
    (cfgFields : List (String × Json)) (entries rs : List Json)
    (himp : w.importOk = true)
    (hargv : w.argv = [prog, dir])
    (hdir : w.pathExists dir = true)
    (hbf : w.pathExists (pyJoin dir "batch.json") = true)
    (hread : w.readJson (pyJoin dir "batch.json") = Except.ok (Json.obj cfgFields))
    (hfiles : objLookup cfgFields "files" = some (Json.arr entries))
    (hinit : initDetector w = Except.ok ())
    (hloop : batchLoop w dir entries = pyPure rs) :
    runBatchScript w = ([(Json.obj [("results", Json.arr rs)], Chan.real)], 0) := by
  unfold runBatchScript mainBatch
  simp [himp, hargv, hdir, hbf, hread, hfiles, hinit, hloop,
    jsonHasMember, jsonGetItem, jsonIterate, pyTry]

/-- Run of the batch script in which the loop raises: the top-level handler
prints the wrapped message and exits 1. -/
theorem runBatch_exn (w : World) (prog dir : String)
    (cfgFields : List (String × Json)) (entries : List Json) (msg : String)
    (himp : w.importOk = true)
    (hargv : w.argv = [prog, dir])
    (hdir : w.pathExists dir = true)
    (hbf : w.pathExists (pyJoin dir "batch.json") = true)
    (hread : w.readJson (pyJoin dir "batch.json") = Except.ok (Json.obj cfgFields))
    (hfiles : objLookup cfgFields "files" = some (Json.arr entries))
    (hinit : initDetector w = Except.ok ())
    (hloop : batchLoop w dir entries = pyRaise msg) :
    runBatchScript w = ([(errJson ("Python script error: " ++ msg), Chan.real)], 1) := by
  unfold runBatchScript mainBatch
  simp [himp, hargv, hdir, hbf, hread, hfiles, hinit, hloop,
    jsonHasMember, jsonGetItem, jsonIterate, pyTry]

/-! ## Output classification of both scripts after a successful import -/

theorem runBatch_shape (w : World) (himp : w.importOk = true) :
    (∃ res, runBatchScript w = ([(Json.obj [("results", Json.arr res)], Chan.real)], 0)) ∨
    (∃ s, runBatchScript w = ([(errJson s, Chan.real)], 1)) := by
  by_cases h1 : w.argv.length < 2
  · exact Or.inr ⟨"missing temp directory path",
      by unfold runBatchScript mainBatch; simp [himp, h1, pyTry]⟩
  obtain ⟨a, b, t, hargv⟩ : ∃ a b t, w.argv = a :: b :: t := by
    cases harg : w.argv with
    | nil => rw [harg] at h1; simp at h1
    | cons x rest =>
      cases rest with
      | nil => rw [harg] at h1; simp at h1
      | cons y t2 => exact ⟨x, y, t2, rfl⟩
  have h1b : ¬ (t.length + 1 + 1 < 2) := by omega
  cases h2 : w.pathExists b with
  | false =>
    exact Or.inr ⟨"temp directory not found",
      by unfold runBatchScript mainBatch; simp [himp, h1b, hargv, h2, pyTry]⟩
  | true =>
  cases h3 : w.pathExists (pyJoin b "batch.json") with
  | false =>
    exact Or.inr ⟨"batch.json not found",
      by unfold runBatchScript mainBatch; simp [himp, h1b, hargv, h2, h3, pyTry]⟩
  | true =>
  rcases hrj : w.readJson (pyJoin b "batch.json") with e | cfg
  · exact Or.inr ⟨"Python script error: " ++ e,
      by unfold runBatchScript mainBatch; simp [himp, h1b, hargv, h2, h3, hrj, pyTry]⟩
  rcases hhm : jsonHasMember "files" cfg with e | hf
  · exact Or.inr ⟨"Python script error: " ++ e,
      by unfold runBatchScript mainBatch; simp [himp, h1b, hargv, h2, h3, hrj, hhm, pyTry]⟩
  cases hf with
  | false =>
    exact Or.inr ⟨"batch.json missing \x27files\x27 array",
      by unfold runBatchScript mainBatch; simp [himp, h1b, hargv, h2, h3, hrj, hhm, pyTry]⟩
  | true =>
  rcases hinit : initDetector w with e | u
  · exact Or.inr ⟨"Python script error: " ++ e,
      by unfold runBatchScript mainBatch;
         simp [himp, h1b, hargv, h2, h3, hrj, hhm, hinit, pyTry]⟩
  rcases hgi : jsonGetItem cfg "files" with e | files
  · exact Or.inr ⟨"Python script error: " ++ e,
      by unfold runBatchScript mainBatch;
         simp [himp, h1b, hargv, h2, h3, hrj, hhm, hinit, hgi, pyTry]⟩
  rcases hit : jsonIterate files with e | items
  · exact Or.inr ⟨"Python script error: " ++ e,
      by unfold runBatchScript mainBatch;
         simp [himp, h1b, hargv, h2, h3, hrj, hhm, hinit, hgi, hit, pyTry]⟩
  rcases batchLoop_shape w b items with ⟨rs, hloop⟩ | ⟨msg, hloop⟩
  · exact Or.inl ⟨rs,
      by unfold runBatchScript mainBatch;
         simp [himp, h1b, hargv, h2, h3, hrj, hhm, hinit, hgi, hit, hloop, pyTry]⟩
  · exact Or.inr ⟨"Python script error: " ++ msg,
      by unfold runBatchScript mainBatch;
         simp [himp, h1b, hargv, h2, h3, hrj, hhm, hinit, hgi, hit, hloop, pyTry]⟩

theorem runSingle_shape (w : World) (himp : w.importOk = true) :
    (∃ faces, runSingleScript w = ([(Json.obj [("faces", Json.arr faces)], Chan.real)], 0)) ∨
    (∃ s, runSingleScript w = ([(errJson s, Chan.real)], 1)) := by
  by_cases h1 : w.argv.length < 2
  · exact Or.inr ⟨"missing image path",
      by unfold runSingleScript mainSingle; simp [himp, h1, pyTry]⟩
  obtain ⟨a, b, t, hargv⟩ : ∃ a b t, w.argv = a :: b :: t := by
    cases harg : w.argv with
    | nil => rw [harg] at h1; simp at h1
    | cons x rest =>
      cases rest with
      | nil => rw [harg] at h1; simp at h1
      | cons y t2 => exact ⟨x, y, t2, rfl⟩
  have h1b : ¬ (t.length + 1 + 1 < 2) := by omega
  cases h2 : w.pathExists b with
  | false =>
    exact Or.inr ⟨"image not found",
      by unfold runSingleScript mainSingle; simp [himp, h1b, hargv, h2, pyTry]⟩
  | true =>
  rcases h3 : w.imread b with _ | img
  · exact Or.inr ⟨"could not read image",
      by unfold runSingleScript mainSingle; simp [himp, h1b, hargv, h2, h3, pyTry]⟩
  rcases hinit : initDetector w with e | u
  · exact Or.inr ⟨"Python script error: " ++ e,
      by unfold runSingleScript mainSingle; simp [himp, h1b, hargv, h2, h3, hinit, pyTry]⟩
  rcases hget : w.faGet img with e | faces
  · exact Or.inr ⟨"Python script error: " ++ e,
      by unfold runSingleScript mainSingle;
         simp [himp, h1b, hargv, h2, h3, hinit, hget, pyTry]⟩
  rcases hnorm : normalizeFaces faces with e | out
  · exact Or.inr ⟨"Python script error: " ++ e,
      by unfold runSingleScript mainSingle;
         simp [himp, h1b, hargv, h2, h3, hinit, hget, hnorm, pyTry]⟩
  · exact Or.inl ⟨out,
      by unfold runSingleScript mainSingle;
         simp [himp, h1b, hargv, h2, h3, hinit, hget, hnorm, pyTry]⟩

/-! ## Shape of individual batch results -/

theorem processSingleImage_photoId (w : World) (p : String) (pid : Json) :
    jsonMember (processSingleImage w p pid) "photoId" = some pid := by
  unfold processSingleImage
  split
  · simp [batchResultErr, jsonMember, objLookup]
  · split
    · simp [batchResultErr, jsonMember, objLookup]
    · split
      · simp [batchResultErr, jsonMember, objLookup]
      · split
        · simp [batchResultErr, jsonMember, objLookup]
        · simp [jsonMember, objLookup]

theorem entryProcess_photoId (w : World) (dir : String) (e : Json) :
    jsonMember (entryProcess w dir e) "photoId" =
      some ((jsonMember e "photoId").getD Json.null) :=
  processSingleImage_photoId w _ _

theorem entryWFb_photoId {e : Json} (h : entryWFb e = true) :
    ∃ pid, jsonMember e "photoId" = some pid := by
  cases e <;> simp [entryWFb] at h
  case obj fields =>
    exact Option.isSome_iff_exists.mp h.1

theorem processSingleImage_fails (w : World) (p : String) (pid : Json)
    (hf : pathFailsb w p = true) :
    jsonMember (processSingleImage w p pid) "faces" = some (Json.arr []) ∧
    ∃ msg, jsonMember (processSingleImage w p pid) "error" = some (Json.str msg) := by
  unfold pathFailsb at hf
  unfold processSingleImage
  cases hpe : w.pathExists p with
  | false =>
    simp [hpe, batchResultErr, jsonMember, objLookup]
  | true =>
    rcases him : w.imread p with _ | img
    · simp [hpe, him, batchResultErr, jsonMember, objLookup]
    · rcases hget : w.faGet img with m | fs
      · simp [hpe, him, hget, batchResultErr, jsonMember, objLookup]
      · rw [hpe, him] at hf
        simp [hget] at hf

theorem entryProcess_fails (w : World) (dir : String) (e : Json)
    (hf : entryFailsb w dir e = true) :
    jsonMember (entryProcess w dir e) "faces" = some (Json.arr []) ∧
    ∃ msg, jsonMember (entryProcess w dir e) "error" = some (Json.str msg) :=
  processSingleImage_fails w _ _ hf

theorem entryProcess_congr (w w2 : World) (dir : String)
    (hpe : w2.pathExists = w.pathExists) (him : w2.imread = w.imread)
    (hfg : w2.faGet = w.faGet) :
    entryProcess w2 dir = entryProcess w dir := by
  funext e
  unfold entryProcess processSingleImage
  rw [hpe, him, hfg]

/-! ## Claim C5: detection-size parsing -/

/-- Claim C5: for every string input, detection-size parsing returns `(w, h)`
exactly when the string splits on a comma into two parts that both parse as
integers greater than zero after trimming (`specDetSizeParse`, written from
the claim), and on every other input it returns the default `(640, 640)`;
totality of `parseDetSize` is the never-raises part. -/
theorem det_size_parse_matches_spec :
    ∀ s : String, parseDetSize s = (specDetSizeParse s).getD (640, 640) := by
  intro s
  unfold parseDetSize specDetSizeParse
  rcases hsp : pySplitChar ',' s with _ | ⟨a, _ | ⟨b, _ | ⟨c, t⟩⟩⟩ <;> simp
  rcases hw : pyInt (pyStrip a) with _ | w <;>
    rcases hh : pyInt (pyStrip b) with _ | h <;> simp
  by_cases hpos : 0 < w ∧ 0 < h <;> simp [hpos]

/-! ## Claim C6: provider-list parsing -/

/-- Claim C6: for every string input, provider-list parsing returns the
comma-split, trimmed, empty-dropped segment list (`specProviderSegments`,
written from the claim) unless that list is empty, in which case it returns
the single default provider; the result is always nonempty, and totality is
the never-raises part. -/
theorem providers_parse_matches_spec :
    ∀ s : String,
      parseProviders s =
        (if specProviderSegments s = [] then ["CPUExecutionProvider"]
         else specProviderSegments s) ∧
      parseProviders s ≠ [] := by
  intro s
  constructor
  · rfl
  · show (if specProviderSegments s = [] then ["CPUExecutionProvider"]
       else specProviderSegments s) ≠ []
    by_cases h : specProviderSegments s = []
    · rw [if_pos h]
      simp
    · rw [if_neg h]
      exact h

/-! ## Claim C3: the embedding key of every emitted DetectionResult -/

/-- Claim C3: every face record whose normalization is emitted carries an
`"embedding"` key holding a JSON array of numbers — never `null`, never an
omitted key — and when the record has no embedding attribute or its embedding
is `None`, that array is empty. -/
theorem emitted_embedding_always_list (f : FaceRec) (j : Json)
    (h : normalizeFace f = Except.ok j) :
    ∃ l : List Rat,
      jsonMember j "embedding" = some (Json.arr (l.map Json.num)) ∧
      ((f.hasEmb = false ∨ f.embIsNone = true) → l = []) := by
  unfold normalizeFace at h
  rcases hb : extractBbox f with e | bbox <;> rw [hb] at h
  · exact absurd h (by simp)
  rcases he : extractEmbedding f with e | emb <;> rw [he] at h
  · exact absurd h (by simp)
  refine ⟨embOrEmpty emb, ?_, ?_⟩
  · cases h.symm
    simp [jsonMember, objLookup]
  · intro hno
    have hnone : extractEmbedding f = Except.ok none := by
      unfold extractEmbedding
      rcases hno with h1 | h1 <;> simp [h1]
    rw [hnone] at he
    cases he
    rfl

/-- Witness for claim C3 at `faceNoEmbedding`: its normalization succeeds and
the theorem yields the empty embedding array. -/
theorem emitted_embedding_always_list_witness :
    ∃ l : List Rat,
      jsonMember
        (Json.obj
          [("box", Json.arr [Json.num 1, Json.num 2, Json.num 3, Json.num 4]),
           ("score", Json.num 1),
           ("embedding", Json.arr [])]) "embedding" =
        some (Json.arr (l.map Json.num)) ∧
      ((faceNoEmbedding.hasEmb = false ∨ faceNoEmbedding.embIsNone = true) → l = []) :=
  emitted_embedding_always_list faceNoEmbedding _ rfl

/-! ## Claim C8: order of the embedding-extraction fallback tiers

The scripts try `f.embedding.tolist()` first and fall back to direct
iteration of `f.embedding` only when `tolist` raises; the claim asserts the
opposite order (direct coercion first, list conversion as the fallback), so
it fails on any record where the two tiers produce different values. -/

/-- Counterexample to claim C8 as stated: on `faceBothTiersDiffer` the code
extracts the `tolist` value `[1]`, while the direct-coercion-first order the
claim describes would extract `[2]`. -/
theorem embedding_direct_first_counterexample :
    extractEmbedding faceBothTiersDiffer = Except.ok (some [1]) ∧
    specEmbeddingDirectFirst faceBothTiersDiffer = Except.ok (some [2]) ∧
    extractEmbedding faceBothTiersDiffer ≠ specEmbeddingDirectFirst faceBothTiersDiffer := by
  refine ⟨rfl, rfl, ?_⟩
  intro hcontra
  rw [show extractEmbedding faceBothTiersDiffer = Except.ok (some [1]) from rfl,
      show specEmbeddingDirectFirst faceBothTiersDiffer = Except.ok (some [2]) from rfl]
      at hcontra
  simp at hcontra

/-- Claim C8 as amended: for every face record whose embedding attribute
exists and is non-null, extraction first attempts the `tolist()` list
conversion; the direct-coercion tier is consulted only after `tolist` throws
(in particular the result is independent of the direct tier whenever `tolist`
succeeds). -/
theorem embedding_extraction_tolist_first (f : FaceRec)
    (hs : f.hasEmb = true) (hn : f.embIsNone = false) :
    (∀ v, f.embTolist = Except.ok v → extractEmbedding f = Except.ok (some v)) ∧
    (∀ e, f.embTolist = Except.error e → extractEmbedding f = f.embDirect.map some) ∧
    (∀ v d, f.embTolist = Except.ok v →
      extractEmbedding { f with embDirect := d } = extractEmbedding f) := by
  refine ⟨?_, ?_, ?_⟩
  · intro v hv
    simp [extractEmbedding, hs, hn, hv]
  · intro e he
    simp [extractEmbedding, hs, hn, he]
  · intro v d hv
    simp [extractEmbedding, hs, hn, hv]

/-- Witness for the amended claim C8 at `faceBothTiersDiffer`: `tolist`
succeeds with `[1]` and extraction returns it. -/
theorem embedding_extraction_tolist_first_witness :
    extractEmbedding faceBothTiersDiffer = Except.ok (some [1]) :=
  (embedding_extraction_tolist_first faceBothTiersDiffer rfl rfl).1 [1] rfl

/-! ## Claim C1: batch output matches the manifest -/

/-- Claim C1: when the manifest preconditions pass, every entry is a
well-formed BatchManifestEntry, and the detector initializes, the run prints
exactly one `results` object and exits 0, the results list has exactly one
element per manifest entry, and the k-th result carries the k-th entry's
`photoId`. -/
theorem batch_results_match_manifest (w : World) (prog dir : String)
    (cfgFields : List (String × Json)) (entries : List Json)
    (himp : w.importOk = true)
    (hargv : w.argv = [prog, dir])
    (hdir : w.pathExists dir = true)
    (hbf : w.pathExists (pyJoin dir "batch.json") = true)
    (hread : w.readJson (pyJoin dir "batch.json") = Except.ok (Json.obj cfgFields))
    (hfiles : objLookup cfgFields "files" = some (Json.arr entries))
    (hinit : initDetector w = Except.ok ())
    (hwf : ∀ e ∈ entries, entryWFb e = true) :
    ∃ results : List Json,
      runBatchScript w = ([(Json.obj [("results", Json.arr results)], Chan.real)], 0) ∧
      results.length = entries.length ∧
      ∀ k : Nat, k < entries.length →
        jsonMember (results.getD k Json.null) "photoId" =
          jsonMember (entries.getD k Json.null) "photoId" := by
  refine ⟨entries.map (entryProcess w dir),
    runBatch_happy w prog dir cfgFields entries _ himp hargv hdir hbf hread hfiles hinit
      (batchLoop_eq_map w dir entries hwf),
    by simp, ?_⟩
  intro k hk
  have hmem : entries.getD k Json.null ∈ entries := getD_mem_of_lt entries k Json.null hk
  obtain ⟨pid, hpid⟩ := entryWFb_photoId (hwf _ hmem)
  rw [getD_map_of_lt (entryProcess w dir) entries k Json.null Json.null hk,
      entryProcess_photoId, hpid]
  simp

/-- Witness for claim C1 at `baseWorld` and its two-entry manifest. -/
theorem batch_results_match_manifest_witness :
    ∃ results : List Json,
      runBatchScript baseWorld = ([(Json.obj [("results", Json.arr results)], Chan.real)], 0) ∧
      results.length =
        (([Json.obj [("photoId", Json.str "p1"), ("filename", Json.str "a.jpg")],
           Json.obj [("photoId", Json.str "p2"), ("filename", Json.str "missing.jpg")]] :
            List Json)).length ∧
      ∀ k : Nat,
        k < (([Json.obj [("photoId", Json.str "p1"), ("filename", Json.str "a.jpg")],
               Json.obj [("photoId", Json.str "p2"), ("filename", Json.str "missing.jpg")]] :
                List Json)).length →
        jsonMember (results.getD k Json.null) "photoId" =
          jsonMember
            ((([Json.obj [("photoId", Json.str "p1"), ("filename", Json.str "a.jpg")],
                Json.obj [("photoId", Json.str "p2"), ("filename", Json.str "missing.jpg")]] :
                 List Json)).getD k Json.null) "photoId" :=
  batch_results_match_manifest baseWorld "prog" "/tmp/dir" _ _
    rfl rfl rfl rfl rfl rfl rfl (by decide)

/-! ## Claim C2: per-entry failure isolation -/

/-- Claim C2: under the preconditions of C1, an entry whose image is missing,
unreadable, or whose inference raises still yields a BatchResult with empty
faces and a non-null error string, the run still exits 0 with a full results
list, and against a sibling world identical except that its manifest omits
the failing entry, the remaining results are exactly the same list with the
failing position removed. -/
theorem batch_entry_failure_isolated
    (w w2 : World) (prog dir : String)
    (cfgFields cfgFields2 : List (String × Json)) (entries : List Json) (k : Nat)
    (himp : w.importOk = true)
    (hargv : w.argv = [prog, dir])
    (hdir : w.pathExists dir = true)
    (hbf : w.pathExists (pyJoin dir "batch.json") = true)
    (hread : w.readJson (pyJoin dir "batch.json") = Except.ok (Json.obj cfgFields))
    (hfiles : objLookup cfgFields "files" = some (Json.arr entries))
    (hinit : initDetector w = Except.ok ())
    (hwf : ∀ e ∈ entries, entryWFb e = true)
    (hk : k < entries.length)
    (hfail : entryFailsb w dir (entries.getD k Json.null) = true)
    (himp2 : w2.importOk = true)
    (hargv2 : w2.argv = [prog, dir])
    (hpe : w2.pathExists = w.pathExists)
    (him : w2.imread = w.imread)
    (hfg : w2.faGet = w.faGet)
    (hread2 : w2.readJson (pyJoin dir "batch.json") = Except.ok (Json.obj cfgFields2))
    (hfiles2 : objLookup cfgFields2 "files" = some (Json.arr (entries.eraseIdx k)))
    (hinit2 : initDetector w2 = Except.ok ()) :
    ∃ results results2 : List Json,
      runBatchScript w = ([(Json.obj [("results", Json.arr results)], Chan.real)], 0) ∧
      runBatchScript w2 = ([(Json.obj [("results", Json.arr results2)], Chan.real)], 0) ∧
      jsonMember (results.getD k Json.null) "faces" = some (Json.arr []) ∧
      (∃ msg, jsonMember (results.getD k Json.null) "error" = some (Json.str msg)) ∧
      results2 = results.eraseIdx k := by
  have hwf2 : ∀ e ∈ entries.eraseIdx k, entryWFb e = true :=
    fun e he => hwf e (mem_of_mem_eraseIdx he)
  have hfk := entryProcess_fails w dir (entries.getD k Json.null) hfail
  refine ⟨entries.map (entryProcess w dir), (entries.eraseIdx k).map (entryProcess w2 dir),
    runBatch_happy w prog dir cfgFields entries _ himp hargv hdir hbf hread hfiles hinit
      (batchLoop_eq_map w dir entries hwf),
    runBatch_happy w2 prog dir cfgFields2 (entries.eraseIdx k) _ himp2 hargv2
      (by rw [hpe]; exact hdir) (by rw [hpe]; exact hbf) hread2 hfiles2 hinit2
      (batchLoop_eq_map w2 dir (entries.eraseIdx k) hwf2),
    ?_, ?_, ?_⟩
  · rw [getD_map_of_lt (entryProcess w dir) entries k Json.null Json.null hk]
    exact hfk.1
  · rw [getD_map_of_lt (entryProcess w dir) entries k Json.null Json.null hk]
    exact hfk.2
  · rw [entryProcess_congr w w2 dir hpe him hfg]
    exact map_eraseIdx_comm (entryProcess w dir) entries k

/-- Witness for claim C2: in `baseWorld` the second entry's image is missing;
`worldErased` runs the same manifest without it. -/
theorem batch_entry_failure_isolated_witness :
    ∃ results results2 : List Json,
      runBatchScript baseWorld =
        ([(Json.obj [("results", Json.arr results)], Chan.real)], 0) ∧
      runBatchScript worldErased =
        ([(Json.obj [("results", Json.arr results2)], Chan.real)], 0) ∧
      jsonMember (results.getD 1 Json.null) "faces" = some (Json.arr []) ∧
      (∃ msg, jsonMember (results.getD 1 Json.null) "error" = some (Json.str msg)) ∧
      results2 = results.eraseIdx 1 :=
  batch_entry_failure_isolated baseWorld worldErased "prog" "/tmp/dir" _ _
    [Json.obj [("photoId", Json.str "p1"), ("filename", Json.str "a.jpg")],
     Json.obj [("photoId", Json.str "p2"), ("filename", Json.str "missing.jpg")]] 1
    rfl rfl rfl rfl rfl rfl rfl (by decide) (by decide) (by decide)
    rfl rfl rfl rfl rfl rfl rfl rfl

/-! ## Claim C10: a malformed entry aborts the whole batch -/

/-- Claim C10: when some manifest entry lacks the `photoId` or `filename`
key, the subscript lookup raises outside the per-image handler, the top-level
handler prints a single `Python script error: ...` object, the process exits
1, and no `results` key is emitted — the printed output is exactly that one
error object even if earlier entries would have succeeded. -/
theorem batch_malformed_entry_aborts (w : World) (prog dir : String)
    (cfgFields : List (String × Json)) (entries : List Json)
    (himp : w.importOk = true)
    (hargv : w.argv = [prog, dir])
    (hdir : w.pathExists dir = true)
    (hbf : w.pathExists (pyJoin dir "batch.json") = true)
    (hread : w.readJson (pyJoin dir "batch.json") = Except.ok (Json.obj cfgFields))
    (hfiles : objLookup cfgFields "files" = some (Json.arr entries))
    (hinit : initDetector w = Except.ok ())
    (hbad : ∃ e ∈ entries, entryBadb e = true) :
    ∃ msg, runBatchScript w =
      ([(errJson ("Python script error: " ++ msg), Chan.real)], 1) := by
  obtain ⟨msg, hloop⟩ := batchLoop_exn w dir entries hbad
  exact ⟨msg, runBatch_exn w prog dir cfgFields entries msg himp hargv hdir hbf hread
    hfiles hinit hloop⟩

/-- Witness for claim C10 at `worldBadEntry`, whose second entry lacks
`photoId` while the first entry would succeed. -/
theorem batch_malformed_entry_aborts_witness :
    ∃ msg, runBatchScript worldBadEntry =
      ([(errJson ("Python script error: " ++ msg), Chan.real)], 1) :=
  batch_malformed_entry_aborts worldBadEntry "prog" "/tmp/dir" _
    [Json.obj [("photoId", Json.str "p1"), ("filename", Json.str "a.jpg")],
     Json.obj [("filename", Json.str "b.jpg")]]
    rfl rfl rfl rfl rfl rfl rfl (by decide)

/-! ## Claim C4: manifest without a files key

As stated the claim quantifies over every manifest that parses as JSON and
lacks a `files` key; a manifest that parses as the JSON number 42 lacks the
key, yet the membership test `"files" not in 42` raises `TypeError` and the
run prints the generic `Python script error: ...` object instead of the
specific message, so the claim holds only for manifests that parse as JSON
objects. -/

/-- Claim C4 as amended: for every batch run whose manifest parses as a JSON
object lacking a `files` key, the program prints exactly the JSON object
`{"error": "batch.json missing 'files' array"}`, exits 1, and no `results`
key appears in the output. -/
theorem batch_missing_files_key_error (w : World) (prog dir : String)
    (cfgFields : List (String × Json))
    (himp : w.importOk = true)
    (hargv : w.argv = [prog, dir])
    (hdir : w.pathExists dir = true)
    (hbf : w.pathExists (pyJoin dir "batch.json") = true)
    (hread : w.readJson (pyJoin dir "batch.json") = Except.ok (Json.obj cfgFields))
    (hfiles : objLookup cfgFields "files" = none) :
    runBatchScript w =
      ([(errJson "batch.json missing \x27files\x27 array", Chan.real)], 1) := by
  unfold runBatchScript mainBatch
  simp [himp, hargv, hdir, hbf, hread, hfiles, jsonHasMember, pyTry]

/-- Witness for the amended claim C4 at `worldNoFiles`. -/
theorem batch_missing_files_key_error_witness :
    runBatchScript worldNoFiles =
      ([(errJson "batch.json missing \x27files\x27 array", Chan.real)], 1) :=
  batch_missing_files_key_error worldNoFiles "prog" "/tmp/dir" _ rfl rfl rfl rfl rfl rfl

/-- Counterexample to claim C4 as stated: in `worldManifestNum` the manifest
parses as the JSON number 42, which has no `files` key, yet the printed
output is the generic top-level error object, not the specific
missing-files message. -/
theorem batch_missing_files_key_counterexample :
    worldManifestNum.readJson (pyJoin "/tmp/dir" "batch.json") = Except.ok (Json.num 42) ∧
    jsonMember (Json.num 42) "files" = none ∧
    runBatchScript worldManifestNum =
      ([(errJson "Python script error: TypeError: argument is not iterable", Chan.real)], 1) ∧
    (runBatchScript worldManifestNum).1 ≠
      [(errJson "batch.json missing \x27files\x27 array", Chan.real)] := by
  refine ⟨rfl, rfl, rfl, ?_⟩
  intro h
  rw [show (runBatchScript worldManifestNum).1 =
    [(errJson "Python script error: TypeError: argument is not iterable", Chan.real)]
    from rfl] at h
  simp [errJson] at h

/-! ## Claim C7: single-image error signaling and exit codes -/

/-- Claim C7: in single-image mode every failure prints a single JSON object
with one `error` string field and exits non-zero; the exit status is 2
exactly when the required library failed to import, and 1 for every bad-input
or runtime failure (missing argument, missing path, unreadable image, or any
other top-level exception). -/
theorem single_error_signaling (w : World) :
    ((runSingleScript w).2 = 2 ↔ w.importOk = false) ∧
    (w.importOk = false →
      runSingleScript w =
        ([(errJson ("missing dependency: " ++ w.importErr), Chan.real)], 2)) ∧
    ((runSingleScript w).2 ≠ 0 → ∃ s, (runSingleScript w).1 = [(errJson s, Chan.real)]) ∧
    (w.importOk = true → (runSingleScript w).2 = 0 ∨ (runSingleScript w).2 = 1) ∧
    (w.importOk = true → w.argv.length < 2 →
      runSingleScript w = ([(errJson "missing image path", Chan.real)], 1)) ∧
    (w.importOk = true → ¬ w.argv.length < 2 →
      w.pathExists (w.argv.getD 1 "") = false →
      runSingleScript w = ([(errJson "image not found", Chan.real)], 1)) ∧
    (w.importOk = true → ¬ w.argv.length < 2 →
      w.pathExists (w.argv.getD 1 "") = true →
      w.imread (w.argv.getD 1 "") = none →
      runSingleScript w = ([(errJson "could not read image", Chan.real)], 1)) := by
  cases himp : w.importOk with
  | false =>
    have hrun : runSingleScript w =
        ([(errJson ("missing dependency: " ++ w.importErr), Chan.real)], 2) := by
      unfold runSingleScript
      simp [himp]
    refine ⟨by simp [hrun], fun _ => hrun, fun _ => ⟨_, by rw [hrun]⟩,
      fun h => absurd h (by simp [himp]),
      fun h => absurd h (by simp [himp]),
      fun h => absurd h (by simp [himp]),
      fun h => absurd h (by simp [himp])⟩
  | true =>
    have argvSplit : ∀ (hlen : ¬ w.argv.length < 2),
        ∃ a b t, w.argv = a :: b :: t ∧ ¬ (t.length + 1 + 1 < 2) := by
      intro hlen
      cases harg : w.argv with
      | nil => rw [harg] at hlen; simp at hlen
      | cons x rest =>
        cases rest with
        | nil => rw [harg] at hlen; simp at hlen
        | cons y t2 => exact ⟨x, y, t2, rfl, by omega⟩
    refine ⟨?_, fun h => absurd h (by simp [himp]), ?_, ?_, ?_, ?_, ?_⟩
    · constructor
      · intro h2
        rcases runSingle_shape w himp with ⟨faces, hf⟩ | ⟨s, hs⟩
        · rw [hf] at h2; simp at h2
        · rw [hs] at h2; simp at h2
      · intro hfalse
        cases hfalse
    · intro hne
      rcases runSingle_shape w himp with ⟨faces, hf⟩ | ⟨s, hs⟩
      · rw [hf] at hne; simp at hne
      · exact ⟨s, by rw [hs]⟩
    · intro _
      rcases runSingle_shape w himp with ⟨faces, hf⟩ | ⟨s, hs⟩
      · exact Or.inl (by rw [hf])
      · exact Or.inr (by rw [hs])
    · intro _ h1
      unfold runSingleScript mainSingle
      simp [himp, h1, pyTry]
    · intro _ h1 hpath
      obtain ⟨a, b, t, hargv, h1b⟩ := argvSplit h1
      rw [hargv] at hpath
      simp at hpath
      unfold runSingleScript mainSingle
      simp [himp, h1b, hargv, hpath, pyTry]
    · intro _ h1 hpath hread
      obtain ⟨a, b, t, hargv, h1b⟩ := argvSplit h1
      rw [hargv] at hpath hread
      simp at hpath hread
      unfold runSingleScript mainSingle
      simp [himp, h1b, hargv, hpath, hread, pyTry]

/-- Witness for claim C7 at `worldNoImport`: the import guard prints a single
error object and exits 2. -/
theorem single_error_signaling_witness :
    runSingleScript worldNoImport =
      ([(errJson ("missing dependency: " ++ "No module named insightface"), Chan.real)], 2) :=
  (single_error_signaling worldNoImport).2.1 rfl

/-! ## Claim C9: stdout redirection is released on every exit path -/

/-- Claim C9: in both modes, every JSON value the scripts print — the final
success object as well as every error object, including the one printed after
detector preparation raises inside the redirect block — goes to the real
stdout channel, because the `with redirect_stdout` block restores the saved
channel on every exit path. -/
theorem stdout_redirect_restored (w : World) :
    (∀ p ∈ (runSingleScript w).1, p.2 = Chan.real) ∧
    (∀ p ∈ (runBatchScript w).1, p.2 = Chan.real) := by
  constructor
  · cases himp : w.importOk with
    | false =>
      have hrun : runSingleScript w =
          ([(errJson ("missing dependency: " ++ w.importErr), Chan.real)], 2) := by
        unfold runSingleScript
        simp [himp]
      rw [hrun]
      intro p hp
      simp at hp
      rw [hp]
    | true =>
      rcases runSingle_shape w himp with ⟨faces, hf⟩ | ⟨s, hs⟩
      · rw [hf]
        intro p hp
        simp at hp
        rw [hp]
      · rw [hs]
        intro p hp
        simp at hp
        rw [hp]
  · cases himp : w.importOk with
    | false =>
      have hrun : runBatchScript w =
          ([(errJson ("missing dependency: " ++ w.importErr), Chan.real)], 2) := by
        unfold runBatchScript
        simp [himp]
      rw [hrun]
      intro p hp
      simp at hp
      rw [hp]
    | true =>
      rcases runBatch_shape w himp with ⟨res, hf⟩ | ⟨s, hs⟩
      · rw [hf]
        intro p hp
        simp at hp
        rw [hp]
      · rw [hs]
        intro p hp
        simp at hp
        rw [hp]

/-- Witness for claim C9 at `worldPrepBoom`, where detector preparation
raises inside the redirect block and the handler prints afterwards on the
restored real channel. -/
theorem stdout_redirect_restored_witness :
    ((errJson "Python script error: boom", Chan.real) : Json × Chan).2 = Chan.real ∧
    (runSingleScript worldPrepBoom).1 = [(errJson "Python script error: boom", Chan.real)] :=
  ⟨(stdout_redirect_restored worldPrepBoom).1
      (errJson "Python script error: boom", Chan.real)
      (by rw [show (runSingleScript worldPrepBoom).1 =
            [(errJson "Python script error: boom", Chan.real)] from rfl]
          exact List.mem_singleton.mpr rfl),
   rfl⟩

end Lumina
